import Mathlib

/-
  Verification development for the MNIST image-classification notebook
  (ImageClassification-Copy1.ipynb). The notebook loads the MNIST dataset,
  builds a two-layer dense network, preprocesses the arrays, fits,
  evaluates, and prints the test accuracy. We embed the notebook's data
  model and operations shallowly and prove the specification claims.
-/

namespace ImageClassification

/-- An MNIST image batch as loaded by mnist.load_data: count × 28 × 28
intensity values; uint8 entries are modelled as natural numbers. -/
def Images (n : ℕ) : Type := Fin n → Fin 28 → Fin 28 → ℕ

/-- Validity of the loaded uint8 data: every intensity lies in [0, 255]. -/
def uint8Valid {n : ℕ} (a : Images n) : Prop :=
  ∀ (i : Fin n) (r c : Fin 28), a i r c ≤ 255

/-- The row-major flat index used by numpy reshape: pixel (r, c) of a
28 × 28 image becomes entry 28 * r + c of the length-784 row. -/
def flatIdx (r c : Fin 28) : Fin 784 :=
  ⟨28 * r.val + c.val, by omega⟩

/-- train_images.reshape((count, 28 * 28)): row-major flattening of each
28 × 28 image into a length-784 vector. -/
def reshape2 {n : ℕ} (a : Images n) : Fin n → Fin 784 → ℕ :=
  fun i k => a i ⟨k.val / 28, by omega⟩ ⟨k.val % 28, by omega⟩

/-- The inverse reshape back to (count, 28, 28), row-major. -/
def reshape3 {n : ℕ} (b : Fin n → Fin 784 → ℕ) : Images n :=
  fun i r c => b i (flatIdx r c)

/-- astype float32 followed by division by 255, modelled over ℚ:
each entry x becomes x / 255. -/
def normalize {n : ℕ} (b : Fin n → Fin 784 → ℕ) : Fin n → Fin 784 → ℚ :=
  fun i k => (b i k : ℚ) / 255

/-- The full preprocessing of an image array in the notebook:
reshape((count, 28 * 28)) followed by astype float32 / 255. -/
def preprocess {n : ℕ} (a : Images n) : Fin n → Fin 784 → ℚ :=
  normalize (reshape2 a)

end ImageClassification

namespace ImageClassification

/-- C1: for every loaded image array with uint8 entries in [0, 255], every
entry of the preprocessed array (reshape then astype float32 / 255)
lies in the interval [0, 1]. -/
theorem preprocess_entries_in_unit_interval {n : ℕ} (a : Images n)
    (h : uint8Valid a) (i : Fin n) (k : Fin 784) :
    0 ≤ preprocess a i k ∧ preprocess a i k ≤ 1 := by
  unfold preprocess normalize reshape2
  constructor
  · positivity
  · rw [div_le_one (by norm_num)]
    exact_mod_cast h i _ _

/-- A concrete loaded image array used to witness the preprocessing claim:
every pixel has intensity 200. -/
def exampleImages : Images 1 := fun _ _ _ => 200

/-- Witness for C1 at a concrete image array and entry. -/
theorem preprocess_entries_in_unit_interval_witness :
    0 ≤ preprocess exampleImages ⟨0, by norm_num⟩ ⟨5, by norm_num⟩ ∧
      preprocess exampleImages ⟨0, by norm_num⟩ ⟨5, by norm_num⟩ ≤ 1 :=
  preprocess_entries_in_unit_interval exampleImages
    (fun _ _ _ => by norm_num [exampleImages]) _ _

/-- C9: the flattening reshape is a value-preserving bijection on entries:
pixel (i, r, c) becomes entry (i, 28 * r + c), the index map is bijective
(so every entry of the original appears exactly once in the result), and
reshaping back to (count, 28, 28) recovers the original array. -/
theorem reshape_bijection_on_entries {n : ℕ} (a : Images n) :
    (∀ (i : Fin n) (r c : Fin 28), reshape2 a i (flatIdx r c) = a i r c) ∧
      Function.Bijective (fun p : Fin 28 × Fin 28 => flatIdx p.1 p.2) ∧
      reshape3 (reshape2 a) = a ∧
      (∀ b : Fin n → Fin 784 → ℕ, reshape2 (reshape3 b) = b) := by
  refine ⟨?_, ?_, ?_, ?_⟩
  · intro i r c
    show a i ⟨(28 * r.val + c.val) / 28, _⟩ ⟨(28 * r.val + c.val) % 28, _⟩ = a i r c
    have hr : (28 * r.val + c.val) / 28 = r.val := by omega
    have hc : (28 * r.val + c.val) % 28 = c.val := by omega
    congr 1 <;> [exact Fin.ext hr; exact Fin.ext hc]
  · constructor
    · intro p q hpq
      have : 28 * p.1.val + p.2.val = 28 * q.1.val + q.2.val :=
        congrArg Fin.val hpq
      have h1 : p.1 = q.1 := Fin.ext (by omega)
      have h2 : p.2 = q.2 := Fin.ext (by omega)
      exact Prod.ext h1 h2
    · intro k
      refine ⟨⟨⟨k.val / 28, by omega⟩, ⟨k.val % 28, by omega⟩⟩, ?_⟩
      exact Fin.ext (by show 28 * (k.val / 28) + k.val % 28 = k.val; omega)
  · funext i r c
    show reshape2 a i (flatIdx r c) = a i r c
    show a i ⟨(28 * r.val + c.val) / 28, _⟩ ⟨(28 * r.val + c.val) % 28, _⟩ = a i r c
    have hr : (28 * r.val + c.val) / 28 = r.val := by omega
    have hc : (28 * r.val + c.val) % 28 = c.val := by omega
    congr 1 <;> [exact Fin.ext hr; exact Fin.ext hc]
  · intro b
    funext i k
    show b i (flatIdx ⟨k.val / 28, _⟩ ⟨k.val % 28, _⟩) = b i k
    congr 1
    exact Fin.ext (by show 28 * (k.val / 28) + k.val % 28 = k.val; omega)

/-- Modelled from the spec: keras.utils.to_categorical is not part of this
repository; the spec says labels 0–9 are one-hot encoded into a length-10
indicator vector. A single label l becomes the vector with 1 at index l
and 0 elsewhere. -/
def to_categorical (l : Fin 10) : Fin 10 → ℕ :=
  fun j => if j = l then 1 else 0

/-- Modelled from the spec: to_categorical applied to an array of n labels
yields an n × 10 array, row i being the one-hot encoding of label i. -/
def to_categoricalBatch {n : ℕ} (ls : Fin n → Fin 10) : Fin n → Fin 10 → ℕ :=
  fun i => to_categorical (ls i)

/-- C2: for every label l in 0..9, to_categorical returns a length-10
indicator vector with entry 1 at index l and 0 at the other nine indices;
on an array of n labels this holds row by row. -/
theorem to_categorical_one_hot {n : ℕ} (ls : Fin n → Fin 10) (l : Fin 10) :
    (to_categorical l l = 1 ∧ ∀ j : Fin 10, j ≠ l → to_categorical l j = 0) ∧
      ∀ i : Fin n, to_categoricalBatch ls i (ls i) = 1 ∧
        ∀ j : Fin 10, j ≠ ls i → to_categoricalBatch ls i j = 0 := by
  refine ⟨⟨?_, ?_⟩, ?_⟩
  · simp [to_categorical]
  · intro j hj
    simp [to_categorical, hj]
  · intro i
    refine ⟨by simp [to_categoricalBatch, to_categorical], ?_⟩
    intro j hj
    simp [to_categoricalBatch, to_categorical, hj]

/-- Witness for C2 at a concrete label array and label. -/
theorem to_categorical_one_hot_witness :
    to_categorical 3 3 = 1 ∧ to_categorical 3 7 = 0 :=
  ⟨(to_categorical_one_hot (n := 1) (fun _ => 3) 3).1.1,
    (to_categorical_one_hot (n := 1) (fun _ => 3) 3).1.2 7 (by decide)⟩

/-- Activation functions named in the notebook's layer constructors. -/
inductive Activation
  | relu
  | softmax
deriving DecidableEq

/-- A densely-connected layer as configured by layers.Dense: a unit count,
an activation, and an optional declared input shape. -/
structure DenseLayer where
  units : ℕ
  activation : Activation
  inputShape : Option ℕ
deriving DecidableEq

/-- The network built by the notebook: models.Sequential() followed by
network.add(layers.Dense(512, relu, input_shape 28 * 28)) and
network.add(layers.Dense(10, softmax)). -/
def network : List DenseLayer :=
  [⟨512, Activation.relu, some (28 * 28)⟩, ⟨10, Activation.softmax, none⟩]

/-- C3: the network consists of exactly two densely-connected layers: a
512-unit ReLU layer on a 784-value input followed by a final 10-unit
softmax layer, and no other layer. -/
theorem network_is_two_dense_layers :
    network.length = 2 ∧
      network = [⟨512, Activation.relu, some 784⟩,
        ⟨10, Activation.softmax, none⟩] := by
  constructor <;> rfl

/-- Modelled from the spec: the softmax activation of the final layer is
internal to the framework; the spec says it produces a probability
distribution over discrete classes. Softmax sends score vector v to the
vector with entry i equal to exp (v i) divided by the sum of exp (v j),
embedded with the exponential map e as a parameter; the only property of
exp the proofs use is its strict positivity. -/
def softmax (e : ℚ → ℚ) {n : ℕ} (v : Fin n → ℚ) : Fin n → ℚ :=
  fun i => e (v i) / ∑ j, e (v j)

/-- C4: for every input vector, the softmax output over the 10 digit
classes is a probability distribution: every entry is nonnegative and the
entries sum to 1, for any strictly positive exponential map. -/
theorem softmax_probability_distribution (e : ℚ → ℚ) {n : ℕ}
    (v : Fin n → ℚ) (he : ∀ x, 0 < e x) (hn : 0 < n) :
    (∀ i, 0 ≤ softmax e v i) ∧ ∑ i, softmax e v i = 1 := by
  have hsum : 0 < ∑ j, e (v j) := by
    apply Finset.sum_pos
    · intro j _
      exact he (v j)
    · haveI : Nonempty (Fin n) := Fin.pos_iff_nonempty.mp hn
      exact Finset.univ_nonempty
  constructor
  · intro i
    exact div_nonneg (le_of_lt (he (v i))) (le_of_lt hsum)
  · unfold softmax
    rw [← Finset.sum_div]
    exact div_self (ne_of_gt hsum)

/-- A concrete strictly positive exponential map used to witness the
softmax claim. -/
def exampleExp (x : ℚ) : ℚ := x ^ 2 + 1

/-- A concrete 10-entry score vector used to witness the softmax claim. -/
def exampleScores : Fin 10 → ℚ := fun i => (i.val : ℚ) - 4

/-- Witness for C4 at a concrete exponential map and score vector. -/
theorem softmax_probability_distribution_witness :
    0 ≤ softmax exampleExp exampleScores 3 ∧
      ∑ i, softmax exampleExp exampleScores i = 1 :=
  ⟨(softmax_probability_distribution exampleExp exampleScores
      (fun x => by unfold exampleExp; positivity) (by norm_num)).1 3,
    (softmax_probability_distribution exampleExp exampleScores
      (fun x => by unfold exampleExp; positivity) (by norm_num)).2⟩

/-- One operation per code cell of the notebook, in the sense of the
claim: library imports and pure inspections (shape, len, value display)
are kept but distinguished from the substantive pipeline steps. -/
inductive Op
  | importLib
  | loadData
  | inspect
  | buildNetwork
  | compileNetwork
  | preprocessImages
  | oneHotLabels
  | fitModel
  | evaluateModel
  | printAccuracy
deriving DecidableEq

/-- The notebook's code cells in execution order: import keras; load_data;
six inspection cells (train shape, len, values; test shape, len, values);
Sequential build; compile; image reshape and normalize; label one-hot;
fit; evaluate; print test_acc. -/
def notebookProgram : List Op :=
  [Op.importLib, Op.loadData,
   Op.inspect, Op.inspect, Op.inspect, Op.inspect, Op.inspect, Op.inspect,
   Op.buildNetwork, Op.compileNetwork,
   Op.preprocessImages, Op.oneHotLabels,
   Op.fitModel, Op.evaluateModel, Op.printAccuracy]

/-- Whether an operation is one of the substantive pipeline steps the
claim orders (everything except imports and inspections). -/
def substantive : Op → Bool
  | Op.importLib => false
  | Op.inspect => false
  | _ => true

/-- C5: the substantive operations execute sequentially in the fixed
order load, build, compile, preprocess (reshape/normalize then one-hot),
fit, evaluate, print accuracy; in particular compile precedes fit and fit
precedes evaluate. -/
theorem notebook_operations_in_order :
    notebookProgram.filter substantive =
      [Op.loadData, Op.buildNetwork, Op.compileNetwork,
       Op.preprocessImages, Op.oneHotLabels,
       Op.fitModel, Op.evaluateModel, Op.printAccuracy] ∧
      notebookProgram.indexOf Op.compileNetwork <
        notebookProgram.indexOf Op.fitModel ∧
      notebookProgram.indexOf Op.fitModel <
        notebookProgram.indexOf Op.evaluateModel := by
  refine ⟨rfl, by decide, by decide⟩

/-- The kinds of Python statement occurring in the notebook's grammar,
including the error-handling construct the claim is about. -/
inductive Stmt
  | importStmt
  | assignStmt
  | exprStmt
  | tryExceptStmt
deriving DecidableEq

/-- Every statement of every code cell of the notebook, in order:
the keras import and version display (cell 1); from-import and the
tuple-unpack load
(cell 2); six inspection expressions; two from-imports, the Sequential
assignment and two add calls; the compile call; the four reshape and
normalize assignments; the to_categorical from-import and two
assignments; the fit call; the evaluate tuple-unpack assignment; the
final print call. -/
def notebookStmts : List Stmt :=
  [Stmt.importStmt, Stmt.exprStmt,
   Stmt.importStmt, Stmt.assignStmt,
   Stmt.exprStmt, Stmt.exprStmt, Stmt.exprStmt,
   Stmt.exprStmt, Stmt.exprStmt, Stmt.exprStmt,
   Stmt.importStmt, Stmt.importStmt, Stmt.assignStmt,
   Stmt.exprStmt, Stmt.exprStmt,
   Stmt.exprStmt,
   Stmt.assignStmt, Stmt.assignStmt, Stmt.assignStmt, Stmt.assignStmt,
   Stmt.importStmt, Stmt.assignStmt, Stmt.assignStmt,
   Stmt.exprStmt,
   Stmt.assignStmt,
   Stmt.exprStmt]

/-- Whether a statement is an error-handling construct. -/
def isErrorHandler : Stmt → Bool
  | Stmt.tryExceptStmt => true
  | _ => false

/-- C6: no statement in any code cell of the notebook is an
error-handling construct: there is no try/except anywhere, so every
failure propagates out unhandled. -/
theorem notebook_has_no_error_handling :
    notebookStmts.all (fun s => !(isErrorHandler s)) = true := by
  decide

/-- The epoch count passed to network.fit. -/
def fitEpochs : ℕ := 5

/-- The batch size passed to network.fit. -/
def fitBatchSize : ℕ := 128

/-- The final-epoch training accuracy recorded in the notebook's stored
fit output: acc 0.9891 at epoch 5 of 5. -/
def recordedTrainAcc : ℚ := 9891 / 10000

/-- The test accuracy recorded in the notebook's stored output of the
final print cell: test_acc 0.9788. -/
def recordedTestAcc : ℚ := 9788 / 10000

/-- C7: the fit call trains for 5 epochs with batch size 128, and the
accuracies recorded in the notebook's stored outputs are approximately
0.989 (training, final epoch) and approximately 0.978 (test), each within
one thousandth of the stated value. -/
theorem recorded_accuracies_match :
    fitEpochs = 5 ∧ fitBatchSize = 128 ∧
      |recordedTrainAcc - 989 / 1000| ≤ 1 / 1000 ∧
      |recordedTestAcc - 978 / 1000| ≤ 1 / 1000 := by
  refine ⟨rfl, rfl, ?_, ?_⟩ <;>
    · rw [abs_le]
      norm_num [recordedTrainAcc, recordedTestAcc]

/-- The four arrays returned by mnist.load_data. -/
inductive Var
  | trainImages
  | trainLabels
  | testImages
  | testLabels
deriving DecidableEq, Fintype

/-- A lifecycle event on one of the four arrays: the load_data binding, a
rebinding to a transformed value, a pure inspection, or a consumption by
fit or evaluate. -/
inductive Ev
  | load (v : Var)
  | transform (v : Var)
  | inspect (v : Var)
  | consume (v : Var)
deriving DecidableEq

/-- The notebook's lifecycle trace: load_data binds all four arrays; six
inspection cells read shapes, lengths and values; the image cell rebinds
each image array twice (reshape, then astype / 255); the label cell
rebinds each label array once (to_categorical); fit consumes the training
pair and evaluate consumes the test pair. -/
def notebookTrace : List Ev :=
  [Ev.load Var.trainImages, Ev.load Var.trainLabels,
   Ev.load Var.testImages, Ev.load Var.testLabels,
   Ev.inspect Var.trainImages, Ev.inspect Var.trainLabels,
   Ev.inspect Var.trainLabels,
   Ev.inspect Var.testImages, Ev.inspect Var.testLabels,
   Ev.inspect Var.testLabels,
   Ev.transform Var.trainImages, Ev.transform Var.trainImages,
   Ev.transform Var.testImages, Ev.transform Var.testImages,
   Ev.transform Var.trainLabels, Ev.transform Var.testLabels,
   Ev.consume Var.trainImages, Ev.consume Var.trainLabels,
   Ev.consume Var.testImages, Ev.consume Var.testLabels]

/-- How many times the trace loads a given array. -/
def loadCount (v : Var) : ℕ :=
  (notebookTrace.filter (fun e => e = Ev.load v)).length

/-- How many times the trace rebinds a given array to a transformed
value. -/
def transformCount (v : Var) : ℕ :=
  (notebookTrace.filter (fun e => e = Ev.transform v)).length

/-- How many times the trace consumes a given array in fit or evaluate. -/
def consumeCount (v : Var) : ℕ :=
  (notebookTrace.filter (fun e => e = Ev.consume v)).length

/-- Whether an event mutates (loads or rebinds) a given array. -/
def mutates (v : Var) : Ev → Bool
  | Ev.load w => w = v
  | Ev.transform w => w = v
  | _ => false

/-- No load or transform of the array occurs at a trace position after a
consume of that array. -/
def noMutationAfterConsume (v : Var) : Prop :=
  ∀ i j : Fin notebookTrace.length, i < j →
    notebookTrace.get i = Ev.consume v →
      mutates v (notebookTrace.get j) = false

instance (v : Var) : Decidable (noMutationAfterConsume v) := by
  unfold noMutationAfterConsume
  infer_instance

/-- Counterexample to C8: the label arrays are not transformed exactly
twice; train_labels is rebound only once, by to_categorical. -/
theorem lifecycle_counterexample :
    transformCount Var.trainLabels = 1 ∧
      ¬ (∀ v : Var, loadCount v = 1 ∧ transformCount v = 2 ∧
        consumeCount v = 1) := by
  constructor
  · decide
  · intro h
    have := (h Var.trainLabels).2.1
    simp [transformCount, notebookTrace] at this

/-- C8 amended: each of the four arrays is loaded exactly once and
consumed exactly once with no further mutation afterwards; the image
arrays are transformed exactly twice before use (reshape, then
normalize), while the label arrays are transformed exactly once
(one-hot encoding). -/
theorem lifecycle_amended :
    ∀ v : Var, loadCount v = 1 ∧ consumeCount v = 1 ∧
      transformCount v =
        (if v = Var.trainImages ∨ v = Var.testImages then 2 else 1) ∧
      noMutationAfterConsume v := by
  decide

/-- The shape of each image array as loaded: (count, 28, 28). -/
def loadedImageShape (count : ℕ) : ℕ × ℕ × ℕ := (count, 28, 28)

/-- The training-set sample count of mnist.load_data, as shown by
train_images.shape and hard-coded in the reshape call. -/
def trainCount : ℕ := 60000

/-- The test-set sample count of mnist.load_data, as shown by
test_images.shape and hard-coded in the reshape call. -/
def testCount : ℕ := 10000

/-- The shape an image array has after reshape((count, 28 * 28)); the
subsequent astype / 255 normalization leaves the shape unchanged. -/
def reshapedShape (s : ℕ × ℕ × ℕ) : ℕ × ℕ := (s.1, s.2.1 * s.2.2)

/-- The shape of a one-hot encoded label array of n labels: (n, 10). -/
def oneHotShape (n : ℕ) : ℕ × ℕ := (n, 10)

/-- C10: preprocessing preserves the number of samples and the
image–label pairing: reshape and normalization leave the first-axis
length of every image array unchanged (60000 for training, 10000 for
test), one-hot encoding keeps one row per label, and the number of
images equals the number of label rows in both the fit pair and the
evaluate pair. -/
theorem preprocessing_preserves_counts_and_pairing :
    (∀ s : ℕ × ℕ × ℕ, (reshapedShape s).1 = s.1) ∧
      (∀ n : ℕ, (oneHotShape n).1 = n) ∧
      (reshapedShape (loadedImageShape trainCount)).1 = 60000 ∧
      (reshapedShape (loadedImageShape testCount)).1 = 10000 ∧
      (reshapedShape (loadedImageShape trainCount)).1 =
        (oneHotShape trainCount).1 ∧
      (reshapedShape (loadedImageShape testCount)).1 =
        (oneHotShape testCount).1 := by
  exact ⟨fun s => rfl, fun n => rfl, rfl, rfl, rfl, rfl⟩

end ImageClassification
